import Mathlib

/-
Verification development for the Homey MCP server example.

Two implementations exist in the repository:
  * an HTTP-backed variant (homey.ts) with tools list_devices and toggle_device,
    built on the authenticated request helper homeyApiRequest;
  * a mock-data variant (a class HomeyApiClient with fixture data) with tools
    list_devices, toggle_device and list_flows.

The embedding below models JSON values, the JavaScript truthiness and
undefined-dropping conventions that the handlers rely on, the HTTP layer as an
oracle function from requests to responses, and each handler as a pure function
returning its tool-response envelope together with the list of HTTP requests it
issued (in order).
-/

set_option autoImplicit false

namespace Homey

/-- JSON values. Object fields are kept in insertion order, as JavaScript does
for string keys created by object literals. -/
inductive Json where
  | null
  | bool (b : Bool)
  | num (q : Rat)
  | str (s : String)
  | arr (elems : List Json)
  | obj (fields : List (String × Json))

/-- Field lookup on a JSON object; on any non-object, no field is found. -/
def Json.getField : Json → String → Option Json
  | .obj fields, k => (fields.find? (fun f => f.1 == k)).map (fun f => f.2)
  | _, _ => none

/-- The keys of a JSON object (empty for non-objects). -/
def Json.keys : Json → List String
  | .obj fields => fields.map (fun f => f.1)
  | _ => []

/-- JavaScript truthiness of a JSON value. -/
def Json.jsTruthy : Json → Bool
  | .null => false
  | .bool b => b
  | .num q => q != 0
  | .str s => s != ""
  | .arr _ => true
  | .obj _ => true

/-- Builds the JSON object that JSON.stringify produces from a JavaScript
object literal: fields whose value is undefined (modelled as none) are
dropped from the serialized output. -/
def jsonObjOfFields (fields : List (String × Option Json)) : Json :=
  Json.obj (fields.filterMap (fun f => f.2.map (fun v => (f.1, v))))

/-- A capability value as declared in the source:
value is boolean, number or string. -/
inductive JsValue where
  | bool (b : Bool)
  | num (q : Rat)
  | str (s : String)
deriving DecidableEq

def JsValue.toJson : JsValue → Json
  | .bool b => Json.bool b
  | .num q => Json.num q
  | .str s => Json.str s

/-- JavaScript truthiness of a capability value. -/
def JsValue.jsTruthy : JsValue → Bool
  | .bool b => b
  | .num q => q != 0
  | .str s => s != ""

/-- The string interpolation of a value inside a template literal.
Number formatting only approximates the JavaScript rendering; no verified
property depends on it. -/
def JsValue.templateString : JsValue → String
  | .bool b => if b then "true" else "false"
  | .num q => if q.den == 1 then toString q.num else toString q
  | .str s => s

/-- A capability state object, per the HomeyDevice interface:
a value plus an optional type tag. -/
structure CapState where
  value : JsValue
  type : Option String
deriving DecidableEq

/-- The HomeyDevice interface from homey.ts. zoneName models the optional
nested zone object through the access zone?.name; deviceClass models the
field class (a Lean keyword). -/
structure HomeyDevice where
  id : String
  name : String
  zoneName : Option String
  deviceClass : Option String
  capabilities : Option (List String)
  capabilitiesObj : Option (List (String × CapState))
deriving DecidableEq

/-- Parsed JSON bodies the upstream API can return, per the consumed
endpoints: device-list and single-device results wrapped in a result field,
or any other body (such as the arbitrary JSON a PUT returns), which no
handler reads a result array or object out of. -/
inductive ApiBody where
  | deviceList (result : List HomeyDevice)
  | device (result : HomeyDevice)
  | empty
deriving DecidableEq

/-- An HTTP request as handed to fetch: the url, the method, the value of the
Authorization header, and the serialized body when one is sent. -/
structure HttpRequest where
  url : String
  method : String
  authorization : String
  body : Option Json

/-- An HTTP response as observed by homeyApiRequest: the ok flag, status code,
status text, the body as text (response.text) and as parsed JSON
(response.json). -/
structure HttpResponse where
  ok : Bool
  status : Nat
  statusText : String
  bodyText : String
  jsonBody : ApiBody

/-- The environment of the HTTP variant: the two credential environment
variables (empty string when unset, matching the source defaults), the API
base url, and the network modelled as an oracle from requests to responses. -/
structure HomeyEnv where
  clientId : String
  clientSecret : String
  apiUrl : String
  fetch : HttpRequest → HttpResponse

/-- getHomeyToken from homey.ts: throws when either credential is falsy
(the empty string), otherwise returns the client secret as the token. -/
def getHomeyToken (env : HomeyEnv) : Except String String :=
  if env.clientId = "" ∨ env.clientSecret = "" then
    Except.error
      "HOMEY_CLIENT_ID and HOMEY_CLIENT_SECRET environment variables must be set"
  else
    Except.ok env.clientSecret

/-- The body attached to the fetch options: present only when a body was
supplied, it is truthy, and the method is not GET, as in the source. -/
def requestBodyToSend (method : String) (body : Option Json) : Option Json :=
  match body with
  | some b => if b.jsTruthy && method != "GET" then some b else none
  | none => none

/-- The error message thrown by homeyApiRequest on a response that is not ok:
it embeds the status code, the status text and the body text. -/
def failMessage (resp : HttpResponse) : String :=
  "Homey API request failed: " ++ toString resp.status ++ " "
    ++ resp.statusText ++ " - " ++ resp.bodyText

/-- The fetch call and response handling of homeyApiRequest: issues the
request, returns the parsed JSON body when the response is ok and the failure
message otherwise. -/
def homeyFetchStep (env : HomeyEnv) (req : HttpRequest) :
    Except String ApiBody × List HttpRequest :=
  let resp := env.fetch req
  if resp.ok then (.ok resp.jsonBody, [req])
  else (.error (failMessage resp), [req])

/-- homeyApiRequest from homey.ts. Returns the parsed body or the thrown error
message, together with the list of fetch calls issued (empty when the token
step throws, a single request otherwise). -/
def homeyApiRequest (env : HomeyEnv) (endpoint : String) (method : String)
    (body : Option Json) : Except String ApiBody × List HttpRequest :=
  match getHomeyToken env with
  | .error e => (.error e, [])
  | .ok token =>
      homeyFetchStep env
        { url := env.apiUrl ++ endpoint
          method := method
          authorization := "Bearer " ++ token
          body := requestBodyToSend method body }

/-- A tool-response envelope. Each element of content is the payload object
that the source serializes with JSON.stringify into a text content item;
isError is none when the field is absent from the returned object. -/
structure ToolResponse where
  content : List Json
  isError : Option Bool

/-- The payload of the first (in this program, only) content item. -/
def ToolResponse.payload (r : ToolResponse) : Json :=
  r.content.headD Json.null

/-- Models the JavaScript string defaulting idiom x || dflt applied to a
possibly-undefined string: the default is used when the value is undefined or
the empty string (both falsy). -/
def jsStringOr (v : Option String) (dflt : String) : String :=
  match v with
  | some s => if s = "" then dflt else s
  | none => dflt

def capStateToJson (c : CapState) : Json :=
  jsonObjOfFields [("value", some c.value.toJson), ("type", c.type.map Json.str)]

def capsObjToJson (co : List (String × CapState)) : Json :=
  Json.obj (co.map (fun p => (p.1, capStateToJson p.2)))

/-- The per-device mapping in the list_devices handler: id and name copied,
zone and class defaulted with ||, capabilities defaulted to an empty array,
state defaulted to an empty object. Arrays and objects are truthy in
JavaScript, so only undefined triggers those two defaults, while an empty
string zone name or class falls back to Unknown. -/
def normalizeDevice (d : HomeyDevice) : Json :=
  Json.obj
    [ ("id", Json.str d.id)
    , ("name", Json.str d.name)
    , ("zone", Json.str (jsStringOr d.zoneName "Unknown"))
    , ("class", Json.str (jsStringOr d.deviceClass "Unknown"))
    , ("capabilities", Json.arr ((d.capabilities.getD []).map Json.str))
    , ("state", capsObjToJson (d.capabilitiesObj.getD [])) ]

/-- The failure payload of the list_devices handler. -/
def listDevicesError (msg : String) : Json :=
  Json.obj
    [ ("error", Json.str "Failed to list Homey devices")
    , ("details", Json.str msg) ]

/-- The list_devices tool handler of the HTTP variant. On a body whose result
field is not an array, the source throws a TypeError at data.result.map, which
the catch block turns into the failure envelope; the exact TypeError text is
modelled approximately and no verified property depends on it. -/
def listDevicesHandler (env : HomeyEnv) : ToolResponse × List HttpRequest :=
  match homeyApiRequest env "/api/devices" "GET" none with
  | (.ok (.deviceList ds), reqs) =>
      let devices := ds.map normalizeDevice
      ( { content :=
            [Json.obj
              [ ("devices", Json.arr devices)
              , ("count", Json.num (devices.length : Rat)) ]]
          isError := none }
      , reqs )
  | (.ok _, reqs) =>
      ( { content := [listDevicesError "TypeError: data.result.map is not a function"]
          isError := some true }
      , reqs )
  | (.error msg, reqs) =>
      ( { content := [listDevicesError msg], isError := some true }, reqs )

/-- The arguments of a toggle_device call; none models an absent (undefined)
argument. The capability default onoff is applied by the destructuring only
when the argument is undefined. -/
structure ToggleArgs where
  deviceId : Option String
  capability : Option String
  value : Option JsValue

/-- Falsiness of a possibly-undefined string argument: undefined and the empty
string are falsy. -/
def jsFalsyOptStr (v : Option String) : Bool :=
  match v with
  | none => true
  | some s => s == ""

/-- The failure payload of the toggle_device handler. The deviceId field is
included only when the argument was supplied, because JSON.stringify drops
fields whose value is undefined. -/
def toggleErrorPayload (msg : String) (deviceId : Option String) : Json :=
  jsonObjOfFields
    [ ("error", some (Json.str "Failed to toggle Homey device"))
    , ("details", some (Json.str msg))
    , ("deviceId", deviceId.map Json.str) ]

def toggleErrorResponse (msg : String) (deviceId : Option String) : ToolResponse :=
  { content := [toggleErrorPayload msg deviceId], isError := some true }

/-- The optional chain capabilitiesObj?.[capability]?.value on a device:
the stored value when present, undefined (none) when capabilitiesObj or the
capability entry is missing. -/
def lookupCapValue (d : HomeyDevice) (capability : String) : Option JsValue :=
  d.capabilitiesObj.bind
    (fun co => (co.find? (fun p => p.1 == capability)).map (fun p => p.2.value))

/-- Reads deviceData.result.capabilitiesObj?.[capability]?.value from a parsed
device response. On a device body the optional chain yields the value when the
capability entry exists and undefined otherwise; on an array body the
capabilitiesObj access yields undefined and the chain short-circuits; on any
other body the result field is undefined and the capabilitiesObj access throws
a TypeError (text modelled approximately, no verified property depends on it). -/
def readCurrentValue (body : ApiBody) (capability : String) :
    Except String (Option JsValue) :=
  match body with
  | .device d => .ok (lookupCapValue d capability)
  | .deviceList _ => .ok none
  | .empty => .error "TypeError: cannot read capabilitiesObj of undefined"

/-- The success envelope of the toggle_device handler. -/
def toggleSuccessResponse (deviceId capability : String) (targetValue : JsValue) :
    ToolResponse :=
  { content :=
      [Json.obj
        [ ("success", Json.bool true)
        , ("deviceId", Json.str deviceId)
        , ("capability", Json.str capability)
        , ("value", targetValue.toJson)
        , ("message", Json.str ("Successfully set " ++ capability ++ " to "
            ++ targetValue.templateString)) ]]
    isError := none }

/-- The PUT step of toggle_device: writes the target value to the capability
endpoint and builds the success envelope, or the failure envelope when the
request helper throws. -/
def toggleWrite (env : HomeyEnv) (origDeviceId : Option String) (deviceId : String)
    (capability : String) (targetValue : JsValue) : ToolResponse × List HttpRequest :=
  match homeyApiRequest env
      ("/api/devices/" ++ deviceId ++ "/capabilities/" ++ capability) "PUT"
      (some (Json.obj [("value", targetValue.toJson)])) with
  | (.error msg, reqs) => (toggleErrorResponse msg origDeviceId, reqs)
  | (.ok _, reqs) => (toggleSuccessResponse deviceId capability targetValue, reqs)

/-- The toggle_device tool handler of the HTTP variant: validates deviceId,
uses an explicit value directly, otherwise fetches the device, negates a
boolean current value and rejects a non-boolean one, then issues the PUT. -/
def toggleDeviceHandler (env : HomeyEnv) (args : ToggleArgs) :
    ToolResponse × List HttpRequest :=
  if jsFalsyOptStr args.deviceId then
    (toggleErrorResponse "deviceId is required" args.deviceId, [])
  else
    match args.value with
    | some v =>
        toggleWrite env args.deviceId (args.deviceId.getD "")
          (args.capability.getD "onoff") v
    | none =>
        match homeyApiRequest env ("/api/devices/" ++ args.deviceId.getD "")
            "GET" none with
        | (.error msg, reqs) => (toggleErrorResponse msg args.deviceId, reqs)
        | (.ok body, reqs) =>
            match readCurrentValue body (args.capability.getD "onoff") with
            | .error msg => (toggleErrorResponse msg args.deviceId, reqs)
            | .ok currentValue =>
                match currentValue with
                | some (.bool b) =>
                    let step := toggleWrite env args.deviceId (args.deviceId.getD "")
                      (args.capability.getD "onoff") (JsValue.bool (!b))
                    (step.1, reqs ++ step.2)
                | _ =>
                    ( toggleErrorResponse
                        ("Cannot toggle capability \"" ++ args.capability.getD "onoff"
                          ++ "\" - current value is not boolean")
                        args.deviceId
                    , reqs )

/-- A device of the mock variant fixture data: every field present, zone a
plain string, capability entries carrying just a value. -/
structure MockDevice where
  id : String
  name : String
  deviceClass : String
  capabilities : List String
  capabilitiesObj : List (String × CapState)
  zone : String
deriving DecidableEq

/-- A flow record of the mock variant fixture data. -/
structure Flow where
  id : String
  name : String
  enabled : Bool
  trigger : String
  actions : List String
deriving DecidableEq

/-- The fixture device list returned by HomeyApiClient.listDevices. -/
def mockDevices : List MockDevice :=
  [ { id := "device-1"
      name := "Living Room Light"
      deviceClass := "light"
      capabilities := ["onoff", "dim"]
      capabilitiesObj :=
        [ ("onoff", { value := JsValue.bool true, type := none })
        , ("dim", { value := JsValue.num (3 / 4 : Rat), type := none }) ]
      zone := "Living Room" }
  , { id := "device-2"
      name := "Bedroom Thermostat"
      deviceClass := "thermostat"
      capabilities := ["target_temperature", "measure_temperature"]
      capabilitiesObj :=
        [ ("target_temperature", { value := JsValue.num 21, type := none })
        , ("measure_temperature", { value := JsValue.num (41 / 2 : Rat), type := none }) ]
      zone := "Bedroom" }
  , { id := "device-3"
      name := "Front Door Lock"
      deviceClass := "lock"
      capabilities := ["locked"]
      capabilitiesObj := [("locked", { value := JsValue.bool true, type := none })]
      zone := "Hallway" } ]

/-- The fixture flow list returned by HomeyApiClient.listFlows. -/
def mockFlows : List Flow :=
  [ { id := "flow-1"
      name := "Good Morning"
      enabled := true
      trigger := "When time is 07:00"
      actions := ["Turn on lights", "Set thermostat to 21Â°C"] }
  , { id := "flow-2"
      name := "Good Night"
      enabled := true
      trigger := "When time is 23:00"
      actions := ["Turn off all lights", "Lock doors"] }
  , { id := "flow-3"
      name := "Away Mode"
      enabled := false
      trigger := "When last person leaves"
      actions := ["Turn off all devices", "Lock all doors", "Set alarm"] } ]

/-- The mutable state of the mock HomeyApiClient instance. -/
structure HomeyApiClient where
  clientId : String
  clientSecret : String
  apiUrl : String
  accessToken : Option String

/-- HomeyApiClient.authenticate: installs the mock token. -/
def HomeyApiClient.authenticate (c : HomeyApiClient) : HomeyApiClient :=
  { c with accessToken := some "MOCK_TOKEN_REPLACE_IN_PRODUCTION" }

/-- The guard at the top of every client method: authenticate when no token
is stored yet. -/
def HomeyApiClient.ensureAuth (c : HomeyApiClient) : HomeyApiClient :=
  if c.accessToken.isNone then c.authenticate else c

/-- HomeyApiClient.listDevices: returns the fixture list. -/
def HomeyApiClient.listDevices (c : HomeyApiClient) :
    List MockDevice × HomeyApiClient :=
  (mockDevices, c.ensureAuth)

/-- HomeyApiClient.listFlows: returns the fixture list. -/
def HomeyApiClient.listFlows (c : HomeyApiClient) : List Flow × HomeyApiClient :=
  (mockFlows, c.ensureAuth)

/-- The string interpolation of a possibly-undefined string argument inside a
template literal: undefined renders as the word undefined. -/
def jsShowOptStr (v : Option String) : String :=
  match v with
  | some s => s
  | none => "undefined"

/-- The object returned by a successful HomeyApiClient.toggleDevice call. -/
structure MockToggleResult where
  deviceId : Option String
  deviceName : String
  previousState : JsValue
  newState : Bool
deriving DecidableEq

def MockToggleResult.toJson (r : MockToggleResult) : Json :=
  jsonObjOfFields
    [ ("deviceId", r.deviceId.map Json.str)
    , ("deviceName", some (Json.str r.deviceName))
    , ("previousState", some r.previousState.toJson)
    , ("newState", some (Json.bool r.newState)) ]

/-- HomeyApiClient.toggleDevice: finds the device, rejects devices without the
onoff capability, and negates the truthiness of the stored onoff value. A
device listing onoff among its capabilities but lacking an onoff entry in
capabilitiesObj would make the source throw a TypeError at the unguarded
value access; the text is modelled approximately, no verified property
depends on it. -/
def HomeyApiClient.toggleDevice (c : HomeyApiClient) (deviceId : Option String) :
    Except String MockToggleResult × HomeyApiClient :=
  let c2 := c.ensureAuth
  let devices := (c2.listDevices).1
  let c3 := (c2.listDevices).2
  match devices.find? (fun d => some d.id == deviceId) with
  | none => (.error ("Device not found: " ++ jsShowOptStr deviceId), c3)
  | some device =>
      if !(device.capabilities.contains "onoff") then
        ( .error ("Device " ++ jsShowOptStr deviceId
            ++ " does not support onoff capability")
        , c3 )
      else
        match device.capabilitiesObj.find? (fun p => p.1 == "onoff") with
        | none => (.error "TypeError: cannot read value of undefined", c3)
        | some p =>
            let currentState := p.2.value
            ( .ok
                { deviceId := deviceId
                  deviceName := device.name
                  previousState := currentState
                  newState := !currentState.jsTruthy }
            , c3 )

def mockDeviceToJson (d : MockDevice) : Json :=
  Json.obj
    [ ("id", Json.str d.id)
    , ("name", Json.str d.name)
    , ("class", Json.str d.deviceClass)
    , ("capabilities", Json.arr (d.capabilities.map Json.str))
    , ("capabilitiesObj", capsObjToJson d.capabilitiesObj)
    , ("zone", Json.str d.zone) ]

def flowToJson (f : Flow) : Json :=
  Json.obj
    [ ("id", Json.str f.id)
    , ("name", Json.str f.name)
    , ("enabled", Json.bool f.enabled)
    , ("trigger", Json.str f.trigger)
    , ("actions", Json.arr (f.actions.map Json.str)) ]

/-- The failure payload common to all three mock-variant handlers:
just the error message, no fixed summary and no details field. -/
def mockErrorPayload (msg : String) : Json :=
  Json.obj [("error", Json.str msg)]

/-- The try/catch body of the mock list_devices handler, as a function of the
outcome of the awaited client call. -/
def mockListDevicesTool (r : Except String (List MockDevice)) : ToolResponse :=
  match r with
  | .ok devices =>
      { content := [Json.obj [("devices", Json.arr (devices.map mockDeviceToJson))]]
        isError := none }
  | .error msg => { content := [mockErrorPayload msg], isError := some true }

/-- The try/catch body of the mock toggle_device handler, as a function of the
outcome of the awaited client call. -/
def mockToggleDeviceTool (r : Except String MockToggleResult) : ToolResponse :=
  match r with
  | .ok result => { content := [result.toJson], isError := none }
  | .error msg => { content := [mockErrorPayload msg], isError := some true }

/-- The try/catch body of the mock list_flows handler, as a function of the
outcome of the awaited client call. -/
def mockListFlowsTool (r : Except String (List Flow)) : ToolResponse :=
  match r with
  | .ok flows =>
      { content := [Json.obj [("flows", Json.arr (flows.map flowToJson))]]
        isError := none }
  | .error msg => { content := [mockErrorPayload msg], isError := some true }

/-- The registered mock list_devices handler, composing the client call
(which never throws in the mock) with the envelope construction. -/
def mockListDevicesHandler (c : HomeyApiClient) : ToolResponse × HomeyApiClient :=
  (mockListDevicesTool (.ok (c.listDevices).1), (c.listDevices).2)

/-- The registered mock toggle_device handler. -/
def mockToggleDeviceHandler (c : HomeyApiClient) (deviceId : Option String) :
    ToolResponse × HomeyApiClient :=
  (mockToggleDeviceTool (c.toggleDevice deviceId).1, (c.toggleDevice deviceId).2)

/-- The registered mock list_flows handler. -/
def mockListFlowsHandler (c : HomeyApiClient) : ToolResponse × HomeyApiClient :=
  (mockListFlowsTool (.ok (c.listFlows).1), (c.listFlows).2)

/-! Helper predicates, request constructors and branch lemmas. -/

/-- A read request, as issued against the device endpoints. -/
def isReadReq (r : HttpRequest) : Bool := r.method == "GET"

/-- A write request, as issued against the capability endpoint. -/
def isWriteReq (r : HttpRequest) : Bool := r.method == "PUT"

/-- The request homeyApiRequest hands to fetch once the token step succeeded:
the base url concatenated with the endpoint, the bearer header built from the
returned token (the client secret), and the body filtered as in the source. -/
def mkRequest (env : HomeyEnv) (endpoint method : String) (body : Option Json) :
    HttpRequest :=
  { url := env.apiUrl ++ endpoint
    method := method
    authorization := "Bearer " ++ env.clientSecret
    body := requestBodyToSend method body }

theorem getHomeyToken_ok (env : HomeyEnv)
    (h1 : env.clientId ≠ "") (h2 : env.clientSecret ≠ "") :
    getHomeyToken env = Except.ok env.clientSecret := by
  unfold getHomeyToken
  rw [if_neg]
  rintro (h | h)
  · exact h1 h
  · exact h2 h

theorem homeyApiRequest_creds (env : HomeyEnv) (endpoint method : String)
    (body : Option Json) (h1 : env.clientId ≠ "") (h2 : env.clientSecret ≠ "") :
    homeyApiRequest env endpoint method body
      = homeyFetchStep env (mkRequest env endpoint method body) := by
  unfold homeyApiRequest mkRequest
  rw [getHomeyToken_ok env h1 h2]

theorem homeyFetchStep_ok (env : HomeyEnv) (req : HttpRequest)
    (h : (env.fetch req).ok = true) :
    homeyFetchStep env req = (Except.ok (env.fetch req).jsonBody, [req]) := by
  simp only [homeyFetchStep, h, if_true]

theorem homeyFetchStep_err (env : HomeyEnv) (req : HttpRequest)
    (h : (env.fetch req).ok = false) :
    homeyFetchStep env req = (Except.error (failMessage (env.fetch req)), [req]) := by
  simp only [homeyFetchStep, h, if_false, Bool.false_eq_true]

theorem homeyFetchStep_trace (env : HomeyEnv) (req : HttpRequest) :
    (homeyFetchStep env req).2 = [req] := by
  unfold homeyFetchStep
  cases h : (env.fetch req).ok <;> simp [h]

/-- The trace of toggleWrite is whatever trace its single helper call
produced. -/
theorem toggleWrite_trace_eq (env : HomeyEnv) (o : Option String)
    (dId cap : String) (v : JsValue) :
    (toggleWrite env o dId cap v).2 =
      (homeyApiRequest env ("/api/devices/" ++ dId ++ "/capabilities/" ++ cap)
        "PUT" (some (Json.obj [("value", v.toJson)]))).2 := by
  unfold toggleWrite
  split
  next h => rw [h]
  next h => rw [h]

/-- Concrete fixtures used by the closed witness theorems. -/

def okResponse (b : ApiBody) : HttpResponse :=
  { ok := true, status := 200, statusText := "OK", bodyText := "", jsonBody := b }

def errResponse : HttpResponse :=
  { ok := false, status := 404, statusText := "Not Found"
    bodyText := "Device not found", jsonBody := ApiBody.empty }

def offDevice : HomeyDevice :=
  { id := "d1", name := "Lamp", zoneName := some "Living Room"
    deviceClass := some "light", capabilities := some ["onoff"]
    capabilitiesObj := some [("onoff", { value := JsValue.bool false, type := none })] }

def numDevice : HomeyDevice :=
  { id := "d2", name := "Dimmer", zoneName := none, deviceClass := none
    capabilities := some ["dim"]
    capabilitiesObj := some [("dim", { value := JsValue.num 1, type := none })] }

def bareDevice : HomeyDevice :=
  { id := "d3", name := "Mystery", zoneName := none, deviceClass := none
    capabilities := none, capabilitiesObj := none }

def envOf (b : ApiBody) : HomeyEnv :=
  { clientId := "client", clientSecret := "secret", apiUrl := "https://homey.test"
    fetch := fun r => if r.method == "GET" then okResponse b else okResponse ApiBody.empty }

def envAllFail : HomeyEnv :=
  { clientId := "client", clientSecret := "secret", apiUrl := "https://homey.test"
    fetch := fun _ => errResponse }

def envNoCreds : HomeyEnv :=
  { clientId := "", clientSecret := "", apiUrl := "https://homey.test"
    fetch := fun _ => okResponse ApiBody.empty }

def argsToggleD1 : ToggleArgs :=
  { deviceId := some "d1", capability := none, value := none }

def argsToggleD2 : ToggleArgs :=
  { deviceId := some "d2", capability := some "dim", value := none }

def argsToggleD3 : ToggleArgs :=
  { deviceId := some "d3", capability := none, value := none }

def argsNoId : ToggleArgs :=
  { deviceId := none, capability := none, value := none }

def argsExplicit : ToggleArgs :=
  { deviceId := some "d1", capability := none, value := some (JsValue.bool true) }

/-! Claim theorems. -/

/-- Claim C4: a toggle_device call whose deviceId argument is absent or falsy
returns an envelope with isError true whose details field is the string
deviceId is required, and no upstream HTTP request is made: the trace is
empty because the validation throws before any helper call. -/
theorem toggle_missing_deviceId_validation (env : HomeyEnv) (args : ToggleArgs)
    (h : jsFalsyOptStr args.deviceId = true) :
    (toggleDeviceHandler env args).1.isError = some true
    ∧ (toggleDeviceHandler env args).1.payload.getField "details"
        = some (Json.str "deviceId is required")
    ∧ (toggleDeviceHandler env args).2 = [] := by
  unfold toggleDeviceHandler
  rw [h]
  refine ⟨rfl, ?_, rfl⟩
  cases hd : args.deviceId <;>
    simp [toggleErrorResponse, toggleErrorPayload, jsonObjOfFields,
      ToolResponse.payload, Json.getField, hd]

/-- Closed witness for claim C4 at a concrete call with no deviceId. -/
theorem toggle_missing_deviceId_validation_witness :
    (toggleDeviceHandler (envOf (ApiBody.device offDevice)) argsNoId).1.isError = some true
    ∧ (toggleDeviceHandler (envOf (ApiBody.device offDevice)) argsNoId).1.payload.getField "details"
        = some (Json.str "deviceId is required")
    ∧ (toggleDeviceHandler (envOf (ApiBody.device offDevice)) argsNoId).2 = [] :=
  toggle_missing_deviceId_validation (envOf (ApiBody.device offDevice)) argsNoId rfl

/-- Claim C8 fails as stated: the only list_flows implementation (the mock
variant) builds its failure payload as the single field error holding the
raw message. At the concrete message boom, the payload has no details field
at all, and its error field is the message itself rather than a fixed
summary string. -/
theorem list_flows_failure_counterexample :
    (mockListFlowsTool (Except.error "boom")).payload.getField "details" = none
    ∧ (mockListFlowsTool (Except.error "boom")).payload.getField "error"
        = some (Json.str "boom") := by
  constructor <;> rfl

/-- Claim C8 (amended): every failing list_flows invocation returns an
envelope with isError true and JSON payload holding exactly the single field
error with the error message text, identical in shape to the mock
list_devices failure envelope; there is no fixed summary string and no
details field. -/
theorem list_flows_failure_envelope (msg : String) :
    (mockListFlowsTool (Except.error msg)).isError = some true
    ∧ (mockListFlowsTool (Except.error msg)).payload = Json.obj [("error", Json.str msg)]
    ∧ (mockListFlowsTool (Except.error msg)).payload
        = (mockListDevicesTool (Except.error msg)).payload :=
  ⟨rfl, rfl, rfl⟩

/-- Shape lemma: the toggleWrite step yields either the success envelope or a
failure envelope built from the original deviceId argument. -/
theorem toggleWrite_shape (env : HomeyEnv) (o : Option String) (dId cap : String)
    (v : JsValue) :
    (toggleWrite env o dId cap v).1 = toggleSuccessResponse dId cap v
    ∨ ∃ msg, (toggleWrite env o dId cap v).1 = toggleErrorResponse msg o := by
  unfold toggleWrite
  rcases hq : homeyApiRequest env ("/api/devices/" ++ dId ++ "/capabilities/" ++ cap)
      "PUT" (some (Json.obj [("value", v.toJson)])) with ⟨res, reqs⟩
  rcases res with msg | body
  · exact Or.inr ⟨msg, rfl⟩
  · exact Or.inl rfl

/-- Shape lemma: every toggle_device result is either a success envelope (for
some target value) or the failure envelope built from the original deviceId
argument. -/
theorem toggle_response_shape (env : HomeyEnv) (args : ToggleArgs) :
    (∃ v, (toggleDeviceHandler env args).1
        = toggleSuccessResponse (args.deviceId.getD "") (args.capability.getD "onoff") v)
    ∨ ∃ msg, (toggleDeviceHandler env args).1 = toggleErrorResponse msg args.deviceId := by
  unfold toggleDeviceHandler
  by_cases h : jsFalsyOptStr args.deviceId = true
  · rw [if_pos h]
    exact Or.inr ⟨_, rfl⟩
  · rw [if_neg h]
    rcases hv : args.value with _ | v
    · rcases hq : homeyApiRequest env ("/api/devices/" ++ args.deviceId.getD "")
          "GET" none with ⟨res, reqs⟩
      rcases res with msg | body
      · exact Or.inr ⟨msg, rfl⟩
      · dsimp only
        rcases hr : readCurrentValue body (args.capability.getD "onoff") with msg | cv
        · exact Or.inr ⟨msg, rfl⟩
        · rcases cv with _ | v
          · exact Or.inr ⟨_, rfl⟩
          · rcases v with b | q | s
            · rcases toggleWrite_shape env args.deviceId (args.deviceId.getD "")
                  (args.capability.getD "onoff") (JsValue.bool (!b)) with hs | ⟨msg, hm⟩
              · exact Or.inl ⟨JsValue.bool (!b), hs⟩
              · exact Or.inr ⟨msg, hm⟩
            · exact Or.inr ⟨_, rfl⟩
            · exact Or.inr ⟨_, rfl⟩
    · rcases toggleWrite_shape env args.deviceId (args.deviceId.getD "")
          (args.capability.getD "onoff") v with hs | ⟨msg, hm⟩
      · exact Or.inl ⟨v, hs⟩
      · exact Or.inr ⟨msg, hm⟩

/-- Claim C10: whenever toggle_device fails, the serialized error payload
contains a deviceId key exactly when the caller supplied the argument;
JSON.stringify drops the field when the value is undefined, so a failure
caused by an absent deviceId carries no deviceId key at all. -/
theorem toggle_error_payload_deviceId_key (env : HomeyEnv) (args : ToggleArgs)
    (h : (toggleDeviceHandler env args).1.isError = some true) :
    ("deviceId" ∈ (toggleDeviceHandler env args).1.payload.keys
      ↔ args.deviceId.isSome = true) := by
  rcases toggle_response_shape env args with ⟨v, hs⟩ | ⟨msg, hm⟩
  · rw [hs] at h
    exact absurd h (by simp [toggleSuccessResponse])
  · rw [hm]
    cases hd : args.deviceId <;>
      simp [toggleErrorResponse, toggleErrorPayload, jsonObjOfFields,
        ToolResponse.payload, Json.keys]

/-- Closed witness for claim C10 at a failing call without a deviceId. -/
theorem toggle_error_payload_deviceId_key_witness :
    ("deviceId" ∈ (toggleDeviceHandler envNoCreds argsNoId).1.payload.keys
      ↔ argsNoId.deviceId.isSome = true) :=
  toggle_error_payload_deviceId_key envNoCreds argsNoId rfl

/-- The envelope invariant of claim C5: the isError field is either absent or
literally true, and it is true exactly when the payload is a failure payload,
recognizable by its error field, which no success payload carries. -/
def EnvelopeInvariant (r : ToolResponse) : Prop :=
  (r.isError = none ∨ r.isError = some true)
  ∧ (r.isError = some true ↔ "error" ∈ r.payload.keys)

/-- Claim C5: across every handler of both variants and every input and
upstream outcome, isError is present (and then equal to true) exactly on the
caught-exception path, whose payload carries an error field, and absent on
every success path. -/
theorem isError_marks_failures :
    (∀ env : HomeyEnv, EnvelopeInvariant (listDevicesHandler env).1)
    ∧ (∀ (env : HomeyEnv) (args : ToggleArgs),
        EnvelopeInvariant (toggleDeviceHandler env args).1)
    ∧ (∀ r, EnvelopeInvariant (mockListDevicesTool r))
    ∧ (∀ r, EnvelopeInvariant (mockToggleDeviceTool r))
    ∧ (∀ r, EnvelopeInvariant (mockListFlowsTool r)) := by
  refine ⟨fun env => ?_, fun env args => ?_, fun r => ?_, fun r => ?_, fun r => ?_⟩
  · unfold listDevicesHandler
    split <;>
      simp [EnvelopeInvariant, ToolResponse.payload, Json.keys, listDevicesError]
  · rcases toggle_response_shape env args with ⟨v, hs⟩ | ⟨msg, hm⟩
    · rw [hs]
      simp [EnvelopeInvariant, toggleSuccessResponse, ToolResponse.payload, Json.keys]
    · rw [hm]
      cases hd : args.deviceId <;>
        simp [EnvelopeInvariant, toggleErrorResponse, toggleErrorPayload,
          jsonObjOfFields, ToolResponse.payload, Json.keys]
  · cases r <;>
      simp [EnvelopeInvariant, mockListDevicesTool, mockErrorPayload,
        ToolResponse.payload, Json.keys]
  · rcases r with msg | res
    · simp [EnvelopeInvariant, mockToggleDeviceTool, mockErrorPayload,
        ToolResponse.payload, Json.keys]
    · cases hd : res.deviceId <;>
        simp [EnvelopeInvariant, mockToggleDeviceTool, MockToggleResult.toJson,
          jsonObjOfFields, ToolResponse.payload, Json.keys, hd]
  · cases r <;>
      simp [EnvelopeInvariant, mockListFlowsTool, mockErrorPayload,
        ToolResponse.payload, Json.keys]

/-- Claim C6: whenever the upstream device listing responds ok with a device
array, the list_devices success payload is an object whose count field equals
the length of its devices array, for any upstream list including the empty
one, and isError is absent; with zero upstream devices the payload is exactly
the object with an empty devices array and count zero. -/
theorem list_devices_count_matches (env : HomeyEnv) (ds : List HomeyDevice)
    (h1 : env.clientId ≠ "") (h2 : env.clientSecret ≠ "")
    (hok : (env.fetch (mkRequest env "/api/devices" "GET" none)).ok = true)
    (hbody : (env.fetch (mkRequest env "/api/devices" "GET" none)).jsonBody
        = ApiBody.deviceList ds) :
    (listDevicesHandler env).1.isError = none
    ∧ (∃ arr, (listDevicesHandler env).1.payload.getField "devices"
          = some (Json.arr arr)
        ∧ (listDevicesHandler env).1.payload.getField "count"
          = some (Json.num (arr.length : Rat))
        ∧ arr.length = ds.length)
    ∧ (ds = [] → (listDevicesHandler env).1.payload
        = Json.obj [("devices", Json.arr []), ("count", Json.num 0)]) := by
  unfold listDevicesHandler
  rw [homeyApiRequest_creds env "/api/devices" "GET" none h1 h2,
    homeyFetchStep_ok env _ hok, hbody]
  refine ⟨rfl, ⟨ds.map normalizeDevice, ?_, ?_, by simp⟩, ?_⟩
  · simp [ToolResponse.payload, Json.getField]
  · simp [ToolResponse.payload, Json.getField]
  · intro hds
    subst hds
    simp [ToolResponse.payload]

/-- Closed witness for claim C6 at an upstream with zero devices. -/
theorem list_devices_count_matches_witness :
    (listDevicesHandler (envOf (ApiBody.deviceList []))).1.isError = none
    ∧ (∃ arr, (listDevicesHandler (envOf (ApiBody.deviceList []))).1.payload.getField "devices"
          = some (Json.arr arr)
        ∧ (listDevicesHandler (envOf (ApiBody.deviceList []))).1.payload.getField "count"
          = some (Json.num (arr.length : Rat))
        ∧ arr.length = ([] : List HomeyDevice).length)
    ∧ (([] : List HomeyDevice) = [] →
        (listDevicesHandler (envOf (ApiBody.deviceList []))).1.payload
          = Json.obj [("devices", Json.arr []), ("count", Json.num 0)]) :=
  list_devices_count_matches (envOf (ApiBody.deviceList [])) []
    (by decide) (by decide) rfl rfl

/-- Claim C7: against an upstream that answers every request with the same
response that is not ok, the request helper fails with the message embedding
the status code, status text and body text, and both HTTP-variant tool
handlers return isError envelopes whose details string contains the numeric
status code (for toggle_device, for every call that passes the deviceId
validation). -/
theorem failure_details_embed_status (env : HomeyEnv) (resp : HttpResponse)
    (h1 : env.clientId ≠ "") (h2 : env.clientSecret ≠ "")
    (hf : ∀ q, env.fetch q = resp) (hok : resp.ok = false) :
    (∀ endpoint method body,
        (homeyApiRequest env endpoint method body).1
          = Except.error ("Homey API request failed: " ++ toString resp.status
              ++ " " ++ resp.statusText ++ " - " ++ resp.bodyText))
    ∧ ((listDevicesHandler env).1.isError = some true
        ∧ ∃ pre post, (listDevicesHandler env).1.payload.getField "details"
            = some (Json.str (pre ++ toString resp.status ++ post)))
    ∧ (∀ args : ToggleArgs, jsFalsyOptStr args.deviceId = false →
        (toggleDeviceHandler env args).1.isError = some true
        ∧ ∃ pre post, (toggleDeviceHandler env args).1.payload.getField "details"
            = some (Json.str (pre ++ toString resp.status ++ post))) := by
  have hreq : ∀ endpoint method body,
      homeyApiRequest env endpoint method body
        = (Except.error (failMessage resp), [mkRequest env endpoint method body]) := by
    intro endpoint method body
    rw [homeyApiRequest_creds env endpoint method body h1 h2,
      homeyFetchStep_err env _ (by rw [hf]; exact hok), hf]
  have hdet : ∀ o : Option String,
      ∃ pre post, (toggleErrorResponse (failMessage resp) o).payload.getField "details"
        = some (Json.str (pre ++ toString resp.status ++ post)) := by
    intro o
    refine ⟨"Homey API request failed: ",
      " " ++ resp.statusText ++ " - " ++ resp.bodyText, ?_⟩
    cases o <;>
      simp [toggleErrorResponse, toggleErrorPayload, jsonObjOfFields,
        ToolResponse.payload, Json.getField, failMessage, String.append_assoc]
  refine ⟨?_, ?_, ?_⟩
  · intro endpoint method body
    rw [hreq endpoint method body]
    simp [failMessage, String.append_assoc]
  · unfold listDevicesHandler
    rw [hreq "/api/devices" "GET" none]
    refine ⟨rfl, "Homey API request failed: ",
      " " ++ resp.statusText ++ " - " ++ resp.bodyText, ?_⟩
    simp [listDevicesError, ToolResponse.payload, Json.getField, failMessage,
      String.append_assoc]
  · intro args hid
    unfold toggleDeviceHandler
    rw [if_neg (by rw [hid]; exact Bool.false_ne_true)]
    rcases hv : args.value with _ | v
    · rw [hreq ("/api/devices/" ++ args.deviceId.getD "") "GET" none]
      exact ⟨rfl, hdet args.deviceId⟩
    · dsimp only
      unfold toggleWrite
      rw [hreq ("/api/devices/" ++ args.deviceId.getD "" ++ "/capabilities/"
          ++ args.capability.getD "onoff") "PUT"
          (some (Json.obj [("value", v.toJson)]))]
      exact ⟨rfl, hdet args.deviceId⟩

/-- Closed witness for claim C7 at a concrete environment answering 404. -/
theorem failure_details_embed_status_witness :
    ((homeyApiRequest envAllFail "/api/devices" "GET" none).1
        = Except.error ("Homey API request failed: " ++ toString errResponse.status
            ++ " " ++ errResponse.statusText ++ " - " ++ errResponse.bodyText))
    ∧ ((listDevicesHandler envAllFail).1.isError = some true
        ∧ ∃ pre post, (listDevicesHandler envAllFail).1.payload.getField "details"
            = some (Json.str (pre ++ toString errResponse.status ++ post)))
    ∧ ((toggleDeviceHandler envAllFail argsExplicit).1.isError = some true
        ∧ ∃ pre post,
          (toggleDeviceHandler envAllFail argsExplicit).1.payload.getField "details"
            = some (Json.str (pre ++ toString errResponse.status ++ post))) := by
  have h := failure_details_embed_status envAllFail errResponse
    (by decide) (by decide) (fun q => rfl) rfl
  exact ⟨h.1 "/api/devices" "GET" none, h.2.1, h.2.2 argsExplicit rfl⟩

/-- The trace of a single helper call: empty when the token step throws, the
one constructed request otherwise. -/
theorem homeyApiRequest_trace (env : HomeyEnv) (endpoint method : String)
    (body : Option Json) :
    (homeyApiRequest env endpoint method body).2 = []
    ∨ (homeyApiRequest env endpoint method body).2
        = [mkRequest env endpoint method body] := by
  unfold homeyApiRequest
  cases h : getHomeyToken env with
  | error e => exact Or.inl rfl
  | ok tok =>
      have htok : tok = env.clientSecret := by
        unfold getHomeyToken at h
        by_cases hc : env.clientId = "" ∨ env.clientSecret = ""
        · rw [if_pos hc] at h
          cases h
        · rw [if_neg hc] at h
          cases h
          rfl
      subst htok
      exact Or.inr (homeyFetchStep_trace env _)

/-- A one-element trace holding a read request satisfies the read-first,
writes-after pattern. -/
theorem singleton_read_trace (env : HomeyEnv) (endpoint : String) :
    ∃ r rest, [mkRequest env endpoint "GET" none] = r :: rest
      ∧ isReadReq r = true ∧ rest.length ≤ 1 ∧ ∀ w ∈ rest, isWriteReq w = true :=
  ⟨mkRequest env endpoint "GET" none, [], rfl, rfl, by simp, by simp⟩

/-- Claim C1 fails as stated: with both credential variables unset, a
toggle_device call without a value and with a non-falsy deviceId issues no
HTTP request at all, because the token step throws before any fetch: the
number of read requests issued is zero, not one, and no PUT write request
exists either. -/
theorem toggle_read_count_counterexample :
    ((toggleDeviceHandler envNoCreds argsToggleD1).2.filter isReadReq).length ≠ 1
    ∧ ((toggleDeviceHandler envNoCreds argsToggleD1).2.filter isWriteReq).length ≠ 1 := by
  constructor <;> decide

/-- Claim C1 (amended): a toggle_device call with an explicit value never
issues a read request; a call without a value whose deviceId is non-falsy
issues, provided both credentials are set, a read request first, followed by
at most one further request, which is the PUT write. When the credentials are
missing, no request at all is issued. -/
theorem toggle_read_precedes_write (env : HomeyEnv) (args : ToggleArgs) :
    (∀ v, args.value = some v →
        (toggleDeviceHandler env args).2.filter isReadReq = [])
    ∧ (args.value = none → jsFalsyOptStr args.deviceId = false →
        env.clientId ≠ "" → env.clientSecret ≠ "" →
        ∃ r rest, (toggleDeviceHandler env args).2 = r :: rest
          ∧ isReadReq r = true ∧ rest.length ≤ 1
          ∧ ∀ w ∈ rest, isWriteReq w = true) := by
  constructor
  · intro v hv
    unfold toggleDeviceHandler
    by_cases h : jsFalsyOptStr args.deviceId = true
    · rw [if_pos h]
      rfl
    · rw [if_neg h, hv]
      dsimp only
      rw [toggleWrite_trace_eq]
      rcases homeyApiRequest_trace env
          ("/api/devices/" ++ args.deviceId.getD "" ++ "/capabilities/"
            ++ args.capability.getD "onoff") "PUT"
          (some (Json.obj [("value", v.toJson)])) with ht | ht <;> rw [ht]
      · rfl
      · simp [isReadReq, mkRequest]
  · intro hv hid h1 h2
    unfold toggleDeviceHandler
    rw [if_neg (by rw [hid]; exact Bool.false_ne_true), hv]
    dsimp only
    rw [homeyApiRequest_creds env _ "GET" none h1 h2]
    cases hok : (env.fetch (mkRequest env ("/api/devices/" ++ args.deviceId.getD "")
        "GET" none)).ok
    · rw [homeyFetchStep_err env _ hok]
      exact singleton_read_trace env _
    · rw [homeyFetchStep_ok env _ hok]
      dsimp only
      rcases hr : readCurrentValue
          (env.fetch (mkRequest env ("/api/devices/" ++ args.deviceId.getD "")
            "GET" none)).jsonBody (args.capability.getD "onoff") with msg | cv
      · exact singleton_read_trace env _
      · rcases cv with _ | v
        · exact singleton_read_trace env _
        · rcases v with b | q | s
          · dsimp only
            rw [toggleWrite_trace_eq]
            rcases homeyApiRequest_trace env
                ("/api/devices/" ++ args.deviceId.getD "" ++ "/capabilities/"
                  ++ args.capability.getD "onoff") "PUT"
                (some (Json.obj [("value", (JsValue.bool (!b)).toJson)])) with ht | ht <;>
              rw [ht]
            · simpa using singleton_read_trace env ("/api/devices/" ++ args.deviceId.getD "")
            · exact ⟨mkRequest env ("/api/devices/" ++ args.deviceId.getD "") "GET" none,
                [mkRequest env ("/api/devices/" ++ args.deviceId.getD ""
                  ++ "/capabilities/" ++ args.capability.getD "onoff") "PUT"
                  (some (Json.obj [("value", (JsValue.bool (!b)).toJson)]))],
                rfl, rfl, by simp, by simp [isWriteReq, mkRequest]⟩
          · exact singleton_read_trace env _
          · exact singleton_read_trace env _

/-- Closed witness for claim C1 (amended): an explicit-value call issues no
read, and a no-value call against a boolean device issues the read first and
then the single write. -/
theorem toggle_read_precedes_write_witness :
    (toggleDeviceHandler (envOf (ApiBody.device offDevice)) argsExplicit).2.filter isReadReq = []
    ∧ ∃ r rest,
        (toggleDeviceHandler (envOf (ApiBody.device offDevice)) argsToggleD1).2 = r :: rest
        ∧ isReadReq r = true ∧ rest.length ≤ 1 ∧ ∀ w ∈ rest, isWriteReq w = true :=
  ⟨(toggle_read_precedes_write (envOf (ApiBody.device offDevice)) argsExplicit).1
      (JsValue.bool true) rfl,
    (toggle_read_precedes_write (envOf (ApiBody.device offDevice)) argsToggleD1).2
      rfl rfl (by decide) (by decide)⟩

/-- Reduction lemma: a no-value toggle_device call that passes validation,
with credentials set and an ok read response carrying a device, reduces to
the toggleWrite step on the negated current value glued behind the read
request, whenever the current value of the capability is the boolean b. -/
theorem toggle_reduces_to_write (env : HomeyEnv) (args : ToggleArgs)
    (d : HomeyDevice) (b : Bool)
    (hv : args.value = none)
    (hid : jsFalsyOptStr args.deviceId = false)
    (h1 : env.clientId ≠ "") (h2 : env.clientSecret ≠ "")
    (hok : (env.fetch (mkRequest env ("/api/devices/" ++ args.deviceId.getD "")
        "GET" none)).ok = true)
    (hbody : (env.fetch (mkRequest env ("/api/devices/" ++ args.deviceId.getD "")
        "GET" none)).jsonBody = ApiBody.device d)
    (hcap : lookupCapValue d (args.capability.getD "onoff")
        = some (JsValue.bool b)) :
    toggleDeviceHandler env args
      = ((toggleWrite env args.deviceId (args.deviceId.getD "")
            (args.capability.getD "onoff") (JsValue.bool (!b))).1,
          mkRequest env ("/api/devices/" ++ args.deviceId.getD "") "GET" none
            :: (toggleWrite env args.deviceId (args.deviceId.getD "")
                (args.capability.getD "onoff") (JsValue.bool (!b))).2) := by
  unfold toggleDeviceHandler
  rw [if_neg (by rw [hid]; exact Bool.false_ne_true), hv]
  dsimp only
  rw [homeyApiRequest_creds env _ "GET" none h1 h2, homeyFetchStep_ok env _ hok]
  dsimp only
  rw [hbody]
  dsimp only [readCurrentValue]
  rw [hcap]
  rfl

/-- Claim C2: a no-value toggle whose fetched current capability value is the
boolean b issues the PUT write with target value the negation of b, and (when
the write succeeds) reports value equal to the negation of b in its success
envelope. Since b ranges over both booleans, false maps to true and true to
false, so two successive successful toggles write back the original value. -/
theorem toggle_negates_boolean_current (env : HomeyEnv) (args : ToggleArgs)
    (d : HomeyDevice) (b : Bool)
    (hv : args.value = none)
    (hid : jsFalsyOptStr args.deviceId = false)
    (h1 : env.clientId ≠ "") (h2 : env.clientSecret ≠ "")
    (hok : (env.fetch (mkRequest env ("/api/devices/" ++ args.deviceId.getD "")
        "GET" none)).ok = true)
    (hbody : (env.fetch (mkRequest env ("/api/devices/" ++ args.deviceId.getD "")
        "GET" none)).jsonBody = ApiBody.device d)
    (hcap : lookupCapValue d (args.capability.getD "onoff")
        = some (JsValue.bool b)) :
    (toggleDeviceHandler env args).2
      = [ mkRequest env ("/api/devices/" ++ args.deviceId.getD "") "GET" none
        , mkRequest env ("/api/devices/" ++ args.deviceId.getD ""
            ++ "/capabilities/" ++ args.capability.getD "onoff") "PUT"
            (some (Json.obj [("value", Json.bool (!b))])) ]
    ∧ ((env.fetch (mkRequest env ("/api/devices/" ++ args.deviceId.getD ""
          ++ "/capabilities/" ++ args.capability.getD "onoff") "PUT"
          (some (Json.obj [("value", Json.bool (!b))])))).ok = true →
        (toggleDeviceHandler env args).1
          = toggleSuccessResponse (args.deviceId.getD "")
              (args.capability.getD "onoff") (JsValue.bool (!b))
        ∧ (toggleDeviceHandler env args).1.payload.getField "value"
            = some (Json.bool (!b))) := by
  rw [toggle_reduces_to_write env args d b hv hid h1 h2 hok hbody hcap]
  dsimp only
  constructor
  · rw [toggleWrite_trace_eq]
    dsimp only [JsValue.toJson]
    rw [homeyApiRequest_creds env _ "PUT" (some (Json.obj
        [("value", Json.bool (!b))])) h1 h2,
      homeyFetchStep_trace env _]
  · intro hput
    unfold toggleWrite
    dsimp only [JsValue.toJson]
    rw [homeyApiRequest_creds env _ "PUT" (some (Json.obj
        [("value", Json.bool (!b))])) h1 h2,
      homeyFetchStep_ok env _ hput]
    exact ⟨rfl, by simp [toggleSuccessResponse, ToolResponse.payload,
      Json.getField, JsValue.toJson]⟩

/-- Closed witness for claim C2: toggling a device whose onoff value is false
issues the read then a write of true and reports value true. -/
theorem toggle_negates_boolean_current_witness :
    (toggleDeviceHandler (envOf (ApiBody.device offDevice)) argsToggleD1).2
      = [ mkRequest (envOf (ApiBody.device offDevice)) "/api/devices/d1" "GET" none
        , mkRequest (envOf (ApiBody.device offDevice)) "/api/devices/d1/capabilities/onoff"
            "PUT" (some (Json.obj [("value", Json.bool true)])) ]
    ∧ (toggleDeviceHandler (envOf (ApiBody.device offDevice)) argsToggleD1).1
        = toggleSuccessResponse "d1" "onoff" (JsValue.bool true)
    ∧ (toggleDeviceHandler (envOf (ApiBody.device offDevice)) argsToggleD1).1.payload.getField "value"
        = some (Json.bool true) := by
  have h := toggle_negates_boolean_current (envOf (ApiBody.device offDevice))
    argsToggleD1 offDevice false rfl rfl (by decide) (by decide) rfl rfl (by decide)
  exact ⟨h.1, (h.2 rfl).1, (h.2 rfl).2⟩

/-- Claim C3: a no-value toggle whose fetched current capability value is
present but not boolean returns an isError envelope whose details field is
exactly the not-boolean message with the capability name substituted, and
issues no PUT write request. -/
theorem toggle_nonboolean_current_fails (env : HomeyEnv) (args : ToggleArgs)
    (d : HomeyDevice) (v : JsValue)
    (hv : args.value = none)
    (hid : jsFalsyOptStr args.deviceId = false)
    (h1 : env.clientId ≠ "") (h2 : env.clientSecret ≠ "")
    (hok : (env.fetch (mkRequest env ("/api/devices/" ++ args.deviceId.getD "")
        "GET" none)).ok = true)
    (hbody : (env.fetch (mkRequest env ("/api/devices/" ++ args.deviceId.getD "")
        "GET" none)).jsonBody = ApiBody.device d)
    (hcap : lookupCapValue d (args.capability.getD "onoff") = some v)
    (hnb : ∀ b, v ≠ JsValue.bool b) :
    (toggleDeviceHandler env args).1.isError = some true
    ∧ (toggleDeviceHandler env args).1.payload.getField "details"
        = some (Json.str ("Cannot toggle capability \"" ++ args.capability.getD "onoff"
            ++ "\" - current value is not boolean"))
    ∧ (toggleDeviceHandler env args).2.filter isWriteReq = [] := by
  have hred : toggleDeviceHandler env args
      = (toggleErrorResponse ("Cannot toggle capability \"" ++ args.capability.getD "onoff"
            ++ "\" - current value is not boolean") args.deviceId,
          [mkRequest env ("/api/devices/" ++ args.deviceId.getD "") "GET" none]) := by
    unfold toggleDeviceHandler
    rw [if_neg (by rw [hid]; exact Bool.false_ne_true), hv]
    dsimp only
    rw [homeyApiRequest_creds env _ "GET" none h1 h2, homeyFetchStep_ok env _ hok]
    dsimp only
    rw [hbody]
    dsimp only [readCurrentValue]
    rw [hcap]
    rcases v with b | q | s
    · exact absurd rfl (hnb b)
    · rfl
    · rfl
  rw [hred]
  refine ⟨rfl, ?_, ?_⟩
  · cases hd : args.deviceId <;>
      simp [toggleErrorResponse, toggleErrorPayload, jsonObjOfFields,
        ToolResponse.payload, Json.getField]
  · simp [isWriteReq, mkRequest, List.filter]

/-- Closed witness for claim C3 at a device whose dim capability is numeric. -/
theorem toggle_nonboolean_current_fails_witness :
    (toggleDeviceHandler (envOf (ApiBody.device numDevice)) argsToggleD2).1.isError = some true
    ∧ (toggleDeviceHandler (envOf (ApiBody.device numDevice)) argsToggleD2).1.payload.getField "details"
        = some (Json.str ("Cannot toggle capability \"" ++ argsToggleD2.capability.getD "onoff"
            ++ "\" - current value is not boolean"))
    ∧ (toggleDeviceHandler (envOf (ApiBody.device numDevice)) argsToggleD2).2.filter isWriteReq = [] :=
  toggle_nonboolean_current_fails (envOf (ApiBody.device numDevice)) argsToggleD2
    numDevice (JsValue.num 1) rfl rfl (by decide) (by decide) rfl rfl (by decide)
    (by decide)

/-- Claim C9: a no-value toggle whose target capability is entirely absent
from the fetched capabilitiesObj, or whose capabilitiesObj is missing
altogether, fails with the very same not-boolean message rather than a
distinct capability-not-found error, and issues no PUT write request: the
optional chain yields undefined, which fails the typeof boolean test. -/
theorem toggle_absent_capability_fails (env : HomeyEnv) (args : ToggleArgs)
    (d : HomeyDevice)
    (hv : args.value = none)
    (hid : jsFalsyOptStr args.deviceId = false)
    (h1 : env.clientId ≠ "") (h2 : env.clientSecret ≠ "")
    (hok : (env.fetch (mkRequest env ("/api/devices/" ++ args.deviceId.getD "")
        "GET" none)).ok = true)
    (hbody : (env.fetch (mkRequest env ("/api/devices/" ++ args.deviceId.getD "")
        "GET" none)).jsonBody = ApiBody.device d)
    (hcap : lookupCapValue d (args.capability.getD "onoff") = none) :
    (toggleDeviceHandler env args).1.isError = some true
    ∧ (toggleDeviceHandler env args).1.payload.getField "details"
        = some (Json.str ("Cannot toggle capability \"" ++ args.capability.getD "onoff"
            ++ "\" - current value is not boolean"))
    ∧ (toggleDeviceHandler env args).2.filter isWriteReq = [] := by
  have hred : toggleDeviceHandler env args
      = (toggleErrorResponse ("Cannot toggle capability \"" ++ args.capability.getD "onoff"
            ++ "\" - current value is not boolean") args.deviceId,
          [mkRequest env ("/api/devices/" ++ args.deviceId.getD "") "GET" none]) := by
    unfold toggleDeviceHandler
    rw [if_neg (by rw [hid]; exact Bool.false_ne_true), hv]
    dsimp only
    rw [homeyApiRequest_creds env _ "GET" none h1 h2, homeyFetchStep_ok env _ hok]
    dsimp only
    rw [hbody]
    dsimp only [readCurrentValue]
    rw [hcap]
  rw [hred]
  refine ⟨rfl, ?_, ?_⟩
  · cases hd : args.deviceId <;>
      simp [toggleErrorResponse, toggleErrorPayload, jsonObjOfFields,
        ToolResponse.payload, Json.getField]
  · simp [isWriteReq, mkRequest, List.filter]

/-- Closed witness for claim C9 at a device with no capabilitiesObj. -/
theorem toggle_absent_capability_fails_witness :
    (toggleDeviceHandler (envOf (ApiBody.device bareDevice)) argsToggleD3).1.isError = some true
    ∧ (toggleDeviceHandler (envOf (ApiBody.device bareDevice)) argsToggleD3).1.payload.getField "details"
        = some (Json.str ("Cannot toggle capability \"" ++ argsToggleD3.capability.getD "onoff"
            ++ "\" - current value is not boolean"))
    ∧ (toggleDeviceHandler (envOf (ApiBody.device bareDevice)) argsToggleD3).2.filter isWriteReq = [] :=
  toggle_absent_capability_fails (envOf (ApiBody.device bareDevice)) argsToggleD3
    bareDevice rfl rfl (by decide) (by decide) rfl rfl rfl

end Homey
